import Mathlib

/-
Verification of the core logic of the Fermi practice app (src/app.js).

The JavaScript number type is modelled by exact rationals (ℚ) for parsing
and session statistics, and by real numbers (ℝ) for the logarithmic
order-of-magnitude computation; double-precision rounding is below the
resolution of this embedding.  Strings are Lean strings; the DOM is
abstracted to the small state records that the handlers actually read and
write.
-/

/-- A question entry, as documented for data.js:
data = [​{question: "...", answer: 9, source: "...", number: 1}, ...].
The answer field is the correct order of magnitude (an integer exponent). -/
structure Question where
  question : String
  answer : ℤ
  source : String
  number : ℕ
deriving Repr, DecidableEq

/-- The three session counters of app.js (questionsAnswered, totalError,
withinOneOrder), declared at lines 6-8 and mutated only in checkAnswer. -/
structure SessionState where
  questionsAnswered : ℤ
  totalError : ℤ
  withinOneOrder : ℤ
deriving Repr, DecidableEq

/-- All three counters start at 0 (lines 6-8 of app.js). -/
def initialState : SessionState := ⟨0, 0, 0⟩

/-- String.prototype.trim: drop whitespace from both ends.  Modelled by
structural recursion over the character list so that it evaluates inside
the kernel. -/
def jsTrim (s : String) : String :=
  String.mk (((s.toList.dropWhile Char.isWhitespace).reverse.dropWhile
    Char.isWhitespace).reverse)

/-- Result of the JavaScript parseFloat: NaN, a signed Infinity, or a
finite value (modelled as an exact rational). -/
inductive PFloat where
  | nan : PFloat
  | inf (neg : Bool) : PFloat
  | val (q : ℚ) : PFloat
deriving Repr, DecidableEq

/-- Longest prefix of decimal digits of a character list, together with
the remaining characters. -/
def takeDigits : List Char → List Char × List Char
  | [] => ([], [])
  | c :: cs =>
    if c.isDigit then
      let p := takeDigits cs
      (c :: p.1, p.2)
    else ([], c :: cs)

/-- Value of a list of decimal digits, most significant first. -/
def digitsVal (ds : List Char) : ℕ :=
  ds.foldl (fun a c => 10 * a + (c.toNat - 48)) 0

/-- Optional exponent part [eE][+-]?digits of a StrDecimalLiteral.  When no
digit follows the marker the marker is not consumed (parseFloat of "5e" is
5), matching ECMA parseFloat. -/
def parseExponent (cs : List Char) : ℤ × List Char :=
  match cs with
  | [] => (0, cs)
  | c :: rest =>
    if c = 'e' ∨ c = 'E' then
      match rest with
      | [] => (0, cs)
      | s :: rest2 =>
        if s = '+' then
          let p := takeDigits rest2
          if p.1 = [] then (0, cs) else ((digitsVal p.1 : ℤ), p.2)
        else if s = '-' then
          let p := takeDigits rest2
          if p.1 = [] then (0, cs) else (-(digitsVal p.1 : ℤ), p.2)
        else
          let p := takeDigits rest
          if p.1 = [] then (0, cs) else ((digitsVal p.1 : ℤ), p.2)
    else (0, cs)

/-- Mantissa of a StrDecimalLiteral: digits [. digits], . digits, or
digits; none when no digit is present at all. -/
def parseMantissa (cs : List Char) : Option (ℚ × List Char) :=
  let ip := takeDigits cs
  match ip.2 with
  | '.' :: rest =>
    let fp := takeDigits rest
    if ip.1 = [] ∧ fp.1 = [] then none
    else some ((digitsVal ip.1 : ℚ) + (digitsVal fp.1 : ℚ) / (10 : ℚ) ^ fp.1.length, fp.2)
  | _ =>
    if ip.1 = [] then none
    else some ((digitsVal ip.1 : ℚ), ip.2)

/-- Unsigned part of parseFloat: the literal Infinity, or a decimal
mantissa with optional exponent.  Returns the parsed value and the
unconsumed suffix (parseFloat ignores trailing garbage). -/
def parseUnsigned (neg : Bool) (cs : List Char) : PFloat × List Char :=
  if cs.take 8 = "Infinity".toList then (PFloat.inf neg, cs.drop 8)
  else
    match parseMantissa cs with
    | none => (PFloat.nan, cs)
    | some m =>
      let e := parseExponent m.2
      (PFloat.val ((if neg then -m.1 else m.1) * (10 : ℚ) ^ e.1), e.2)

/-- Optional leading sign of parseFloat. -/
def parseSigned (cs : List Char) : PFloat × List Char :=
  match cs with
  | '+' :: rest => parseUnsigned false rest
  | '-' :: rest => parseUnsigned true rest
  | _ => parseUnsigned false cs

/-- ECMA parseFloat on an already-trimmed string, with JavaScript doubles
idealised as exact rationals (no overflow to Infinity, no rounding). -/
def jsParseFloat (s : String) : PFloat × List Char :=
  parseSigned s.toList

/-- parseUserInput of app.js lines 66-80: trim, parse with parseFloat,
reject NaN and non-finite results, reject zero and negative values. -/
def parseUserInput (input : String) : Option ℚ :=
  if jsTrim input = "" then none
  else
    match (jsParseFloat (jsTrim input)).1 with
    | PFloat.nan => none
    | PFloat.inf _ => none
    | PFloat.val num =>
      if num = 0 then none
      else if num < 0 then none
      else some num


/-- toOrderOfMagnitude of app.js lines 86-89: null for non-positive input,
otherwise Math.round(Math.log10(num)).  Math.round rounds half up, which
is Mathlib round (floor of x + 1/2); Math.log10 is real base-10 log. -/
noncomputable def toOrderOfMagnitude (num : ℝ) : Option ℤ :=
  if num ≤ 0 then none
  else some (round (Real.logb 10 num))

/-- calculateError of app.js lines 92-94: Math.abs(userOrder - correctOrder).
Both orders are integers, so the error is a natural number. -/
def calculateError (userOrder correctOrder : ℤ) : ℕ :=
  (userOrder - correctOrder).natAbs

/-- getFeedbackClass of app.js lines 97-102. -/
def getFeedbackClass (error : ℕ) : String :=
  if error = 0 then "feedback-exact"
  else if error = 1 then "feedback-close"
  else if error ≤ 2 then "feedback-ballpark"
  else "feedback-off"

/-- getFeedbackMessage of app.js lines 105-110. -/
def getFeedbackMessage (error : ℕ) : String :=
  if error = 0 then "Exactly right!"
  else if error = 1 then "Close! Off by 1 order of magnitude"
  else if error ≤ 2 then
    "In the ballpark. Off by " ++ toString error ++ " orders of magnitude"
  else "Off by " ++ toString error ++ " orders of magnitude"

/-- The session-statistics update of app.js lines 199-203: increment the
answered count, add the error to the running sum, and increment the
within-one-order count when the error is at most 1. -/
def recordAnswer (s : SessionState) (error : ℕ) : SessionState :=
  { questionsAnswered := s.questionsAnswered + 1
    totalError := s.totalError + (error : ℤ)
    withinOneOrder :=
      if error ≤ 1 then s.withinOneOrder + 1 else s.withinOneOrder }

/-- The session state reached from the initial state after a list of
accepted answers with the given errors. -/
def runSession (errors : List ℕ) : SessionState :=
  errors.foldl recordAnswer initialState

/-- Outcome of a submission: either an error message is shown
(showErrorMessage) and the results pane is untouched, or the answer is
accepted and the result pane gets the order, error, feedback class and
feedback message. -/
inductive CheckOutcome where
  | errorMsg (msg : String) : CheckOutcome
  | result (userOrder : ℤ) (error : ℕ) (cls msg : String) : CheckOutcome

/-- checkAnswer of app.js lines 159-234, restricted to the data it reads
and writes: the input string, the current question, and the session
counters.  Returns the new session state and the displayed outcome. -/
noncomputable def checkAnswer (input : String) (currentQuestion : Option Question)
    (s : SessionState) : SessionState × CheckOutcome :=
  if jsTrim input = "" then (s, CheckOutcome.errorMsg "Please enter an answer")
  else
    match parseUserInput (jsTrim input) with
    | none => (s, CheckOutcome.errorMsg "Please enter a valid number")
    | some userNumber =>
      match currentQuestion with
      | none => (s, CheckOutcome.errorMsg "No question loaded")
      | some q =>
        match toOrderOfMagnitude (userNumber : ℝ) with
        | none => (s, CheckOutcome.errorMsg "Please enter a valid positive number")
        | some userOrder =>
          let error := calculateError userOrder q.answer
          (recordAnswer s error,
            CheckOutcome.result userOrder error
              (getFeedbackClass error) (getFeedbackMessage error))

/-- The toFixed(1) formatting of the average error in updateScoreTracker,
under exact arithmetic: round to the nearest tenth (ties up). -/
def toFixed1 (q : ℚ) : ℚ :=
  (round (10 * q) : ℚ) / 10

/-- The average error displayed by updateScoreTracker (app.js line 287):
(totalError / questionsAnswered).toFixed(1) when at least one question was
answered, otherwise 0.0. -/
def avgErrorShown (s : SessionState) : ℚ :=
  if 0 < s.questionsAnswered then
    toFixed1 ((s.totalError : ℚ) / (s.questionsAnswered : ℚ))
  else 0

/-- The accuracy displayed by updateScoreTracker (app.js line 288):
Math.round((withinOneOrder / questionsAnswered) * 100) when at least one
question was answered, otherwise 0. -/
def accuracyShown (s : SessionState) : ℤ :=
  if 0 < s.questionsAnswered then
    round (((s.withinOneOrder : ℚ) / (s.questionsAnswered : ℚ)) * 100)
  else 0

/-- Result of loadQuestions: the promise either resolves with the question
list or rejects with an error message. -/
inductive LoadResult where
  | resolved (qs : List Question) : LoadResult
  | rejected (msg : String) : LoadResult
deriving DecidableEq

/-- The polling loop of loadQuestions (app.js lines 19-53).  dataAt k
gives the state of the global data variable at the k-th check (none while
the script has not defined it).  fuel counts the remaining checks. -/
def loadLoop (dataAt : ℕ → Option (List Question)) : ℕ → ℕ → LoadResult
  | 0, _ =>
    LoadResult.rejected
      "Question data not loaded. Please check your internet connection and refresh the page."
  | fuel + 1, attempt =>
    match dataAt attempt with
    | some d =>
      if d = [] then LoadResult.rejected "No questions found in data file."
      else LoadResult.resolved d
    | none => loadLoop dataAt fuel (attempt + 1)

/-- loadQuestions of app.js lines 19-53: one immediate check of the data
global, then up to maxAttempts = 50 polls at 100ms intervals; reject with
the timeout message when the data never appears, reject when the array is
empty, and resolve with the array otherwise. -/
def loadQuestions (dataAt : ℕ → Option (List Question)) : LoadResult :=
  loadLoop dataAt 51 0

/-- The UI flags the DOMContentLoaded handler touches on a load failure
(app.js lines 434-451). -/
structure UIState where
  inputDisabled : Bool
  submitDisabled : Bool
  displayedError : Option String
deriving DecidableEq

/-- The catch branch of the DOMContentLoaded handler (app.js lines
434-451): on rejection, the error message is written to the question
display and both the input and the submit button are disabled; on
success the UI state is untouched. -/
def handleLoadOutcome (r : LoadResult) (ui : UIState) : UIState :=
  match r with
  | LoadResult.resolved _ => ui
  | LoadResult.rejected msg =>
    { inputDisabled := true
      submitDisabled := true
      displayedError := some ("ERROR: " ++ msg) }

/-- One UI event of the app, as it acts on the three session counters.
submit is the checkAnswer click or Enter handler; every other handler
(nextQuestion, displayQuestion, updateScoreTracker, updateClock, the boot
sequence) never mentions the counters, so it acts as the identity on
them. -/
inductive AppStep : SessionState → SessionState → Prop
  | submit (input : String) (q : Option Question) (s : SessionState) :
      AppStep s (checkAnswer input q s).1
  | other (s : SessionState) : AppStep s s

/-- Session states reachable from the initial state by app events; the
counters are reset only by a page reload, which restarts from
initialState. -/
def ReachableState (s : SessionState) : Prop :=
  Relation.ReflTransGen AppStep initialState s

/-- Helper: the base-10 log of an integer power of 10. -/
lemma logb_ten_zpow (m : ℤ) : Real.logb 10 ((10 : ℝ) ^ m) = m := by
  rw [← Real.rpow_intCast 10 m, Real.logb_rpow (by norm_num) (by norm_num)]

/-- Helper: toOrderOfMagnitude is determined by squaring the input, which
turns the half-integer rounding boundary into integer powers of ten:
round(log10 x) = n exactly when 10 ^ (2n-1) ≤ x² < 10 ^ (2n+1). -/
lemma toOrderOfMagnitude_eq_of_sq {x : ℝ} {n : ℤ} (hx : 0 < x)
    (h1 : (10 : ℝ) ^ (2 * n - 1) ≤ x ^ 2) (h2 : x ^ 2 < (10 : ℝ) ^ (2 * n + 1)) :
    toOrderOfMagnitude x = some n := by
  have hx2 : (0 : ℝ) < x ^ 2 := by positivity
  have hp1 : (0 : ℝ) < (10 : ℝ) ^ (2 * n - 1) := by positivity
  have hL1 : ((2 * n - 1 : ℤ) : ℝ) ≤ Real.logb 10 (x ^ 2) := by
    calc ((2 * n - 1 : ℤ) : ℝ) = Real.logb 10 ((10 : ℝ) ^ (2 * n - 1)) :=
          (logb_ten_zpow _).symm
    _ ≤ Real.logb 10 (x ^ 2) := Real.logb_le_logb_of_le (by norm_num) hp1 h1
  have hL2 : Real.logb 10 (x ^ 2) < ((2 * n + 1 : ℤ) : ℝ) := by
    calc Real.logb 10 (x ^ 2) < Real.logb 10 ((10 : ℝ) ^ (2 * n + 1)) :=
          Real.logb_lt_logb (by norm_num) hx2 h2
    _ = ((2 * n + 1 : ℤ) : ℝ) := logb_ten_zpow _
  rw [Real.logb_pow] at hL1 hL2
  unfold toOrderOfMagnitude
  rw [if_neg (not_le.mpr hx)]
  congr 1
  rw [round_eq, Int.floor_eq_iff]
  push_cast at hL1 hL2 ⊢
  constructor <;> linarith

/-- Helper: a positive input always gets an order of magnitude. -/
lemma toOrderOfMagnitude_of_pos {x : ℝ} (hx : 0 < x) :
    toOrderOfMagnitude x = some (round (Real.logb 10 x)) := by
  unfold toOrderOfMagnitude
  rw [if_neg (not_le.mpr hx)]

/-- Helper: expansion of an odd power of ten. -/
lemma zpow_two_add_one (n : ℤ) :
    (10 : ℝ) ^ (2 * n + 1) = (10 : ℝ) ^ n * (10 : ℝ) ^ n * 10 := by
  have h10 : (10 : ℝ) ≠ 0 := by norm_num
  rw [show (2 * n + 1 : ℤ) = n + n + 1 by ring, zpow_add₀ h10, zpow_add₀ h10,
    zpow_one]

/-- Helper: values at or above the square-root boundary round up. -/
lemma toOrderOfMagnitude_upper {x : ℝ} {n : ℤ}
    (hlow : Real.sqrt 10 * (10 : ℝ) ^ n ≤ x) (hhigh : x < (10 : ℝ) ^ (n + 1)) :
    toOrderOfMagnitude x = some (n + 1) := by
  have h10 : (10 : ℝ) ≠ 0 := by norm_num
  have hpn : (0 : ℝ) < (10 : ℝ) ^ n := by positivity
  have hb : (0 : ℝ) < Real.sqrt 10 * (10 : ℝ) ^ n := by positivity
  have hx : 0 < x := lt_of_lt_of_le hb hlow
  have hsq : (Real.sqrt 10 * (10 : ℝ) ^ n) ^ 2 = (10 : ℝ) ^ (2 * n + 1) := by
    rw [mul_pow, Real.sq_sqrt (by norm_num : (0 : ℝ) ≤ 10), zpow_two_add_one, sq]
    ring
  apply toOrderOfMagnitude_eq_of_sq hx
  · rw [show (2 * (n + 1) - 1 : ℤ) = 2 * n + 1 by ring, ← hsq]
    exact pow_le_pow_left₀ (le_of_lt hb) hlow 2
  · have hxsq : x ^ 2 < ((10 : ℝ) ^ (n + 1)) ^ 2 :=
      pow_lt_pow_left₀ hhigh (le_of_lt hx) (by norm_num)
    have hexp : ((10 : ℝ) ^ (n + 1)) ^ 2 < (10 : ℝ) ^ (2 * (n + 1) + 1) := by
      rw [sq, ← zpow_add₀ h10, show (n + 1 + (n + 1) : ℤ) = 2 * (n + 1) by ring]
      have : (0 : ℝ) < (10 : ℝ) ^ (2 * (n + 1)) := by positivity
      calc (10 : ℝ) ^ (2 * (n + 1)) < (10 : ℝ) ^ (2 * (n + 1)) * 10 := by linarith
      _ = (10 : ℝ) ^ (2 * (n + 1) + 1) := by rw [zpow_add₀ h10, zpow_one]
    linarith
  
/-- Helper: values below the square-root boundary round down. -/
lemma toOrderOfMagnitude_lower {x : ℝ} {n : ℤ}
    (hlow : (10 : ℝ) ^ n ≤ x) (hhigh : x < Real.sqrt 10 * (10 : ℝ) ^ n) :
    toOrderOfMagnitude x = some n := by
  have h10 : (10 : ℝ) ≠ 0 := by norm_num
  have hpn : (0 : ℝ) < (10 : ℝ) ^ n := by positivity
  have hx : 0 < x := lt_of_lt_of_le hpn hlow
  have hsq : (Real.sqrt 10 * (10 : ℝ) ^ n) ^ 2 = (10 : ℝ) ^ (2 * n + 1) := by
    rw [mul_pow, Real.sq_sqrt (by norm_num : (0 : ℝ) ≤ 10), zpow_two_add_one, sq]
    ring
  apply toOrderOfMagnitude_eq_of_sq hx
  · have hlo2 : ((10 : ℝ) ^ n) ^ 2 ≤ x ^ 2 := pow_le_pow_left₀ (le_of_lt hpn) hlow 2
    have hexp : (10 : ℝ) ^ (2 * n - 1) ≤ ((10 : ℝ) ^ n) ^ 2 := by
      rw [sq, ← zpow_add₀ h10]
      have hstep : (10 : ℝ) ^ (2 * n - 1) * 1 ≤ (10 : ℝ) ^ (2 * n - 1) * 10 := by
        have : (0 : ℝ) < (10 : ℝ) ^ (2 * n - 1) := by positivity
        nlinarith
      calc (10 : ℝ) ^ (2 * n - 1) = (10 : ℝ) ^ (2 * n - 1) * 1 := by ring
      _ ≤ (10 : ℝ) ^ (2 * n - 1) * 10 := hstep
      _ = (10 : ℝ) ^ (n + n) := by
          rw [show (n + n : ℤ) = 2 * n - 1 + 1 by ring, zpow_add₀ h10, zpow_one]
    linarith
  · rw [← hsq]
    exact pow_lt_pow_left₀ hhigh (le_of_lt hx) (by norm_num)

/-- Claim C1 counterexample: the claim states toOrderOfMagnitude(3160) = 4,
but the code computes Math.round(Math.log10(3160)) = round(3.49969...) = 3,
because 3160 is below the true rounding boundary 10^3.5 = 3162.27... -/
theorem toOrderOfMagnitude_3160_cex :
    toOrderOfMagnitude 3160 = some 3 ∧ toOrderOfMagnitude 3160 ≠ some 4 := by
  have h : toOrderOfMagnitude 3160 = some 3 := by
    apply toOrderOfMagnitude_eq_of_sq (by norm_num) <;> norm_num
  exact ⟨h, by rw [h]; simp⟩

/-- Claim C1 (amended): toOrderOfMagnitude computes round(log10(value)) with
the nearest-power-of-ten rounding boundary at √10 × 10^n ≈ 3.1623 × 10^n:
toOrderOfMagnitude(1000) = 3 and toOrderOfMagnitude(3160) = 3 (3160 lies
just below the boundary 3162.27...); every value ≥ √10 × 10^n (and below
10^(n+1)) rounds up to order n+1, and every value in [10^n, √10 × 10^n)
rounds to order n. -/
theorem toOrderOfMagnitude_rounding :
    toOrderOfMagnitude 1000 = some 3 ∧
    toOrderOfMagnitude 3160 = some 3 ∧
    (∀ (x : ℝ) (n : ℤ), Real.sqrt 10 * (10 : ℝ) ^ n ≤ x → x < (10 : ℝ) ^ (n + 1) →
      toOrderOfMagnitude x = some (n + 1)) ∧
    (∀ (x : ℝ) (n : ℤ), (10 : ℝ) ^ n ≤ x → x < Real.sqrt 10 * (10 : ℝ) ^ n →
      toOrderOfMagnitude x = some n) := by
  refine ⟨?_, ?_, ?_, ?_⟩
  · apply toOrderOfMagnitude_eq_of_sq (by norm_num) <;> norm_num
  · apply toOrderOfMagnitude_eq_of_sq (by norm_num) <;> norm_num
  · exact fun x n h1 h2 => toOrderOfMagnitude_upper h1 h2
  · exact fun x n h1 h2 => toOrderOfMagnitude_lower h1 h2

/-- Witness for C1: the boundary clause applied at the concrete input 4000
with n = 3 gives order 4. -/
theorem toOrderOfMagnitude_rounding_witness :
    toOrderOfMagnitude 4000 = some (3 + 1) := by
  apply toOrderOfMagnitude_rounding.2.2.1 4000 3
  · have h4 : Real.sqrt 10 ≤ 4 := by
      rw [show (4 : ℝ) = Real.sqrt 16 by
        rw [show (16 : ℝ) = 4 ^ 2 by norm_num,
          Real.sqrt_sq (by norm_num : (0 : ℝ) ≤ 4)]]
      exact Real.sqrt_le_sqrt (by norm_num)
    have h3 : (10 : ℝ) ^ (3 : ℤ) = 1000 := by norm_num
    rw [h3]
    nlinarith [Real.sqrt_nonneg 10]
  · norm_num

/-- Claim C2: the feedback tier is a pure function of the absolute integer
difference between the user order and the correct order: difference 0
yields the exact tier, 1 yields close, 2 yields ballpark, and every
difference greater than 2 yields off; and for every accepted answer,
checkAnswer displays exactly the class and message determined by that
difference. -/
theorem feedback_tiers (e : ℕ) :
    (e = 0 → getFeedbackClass e = "feedback-exact" ∧
      getFeedbackMessage e = "Exactly right!") ∧
    (e = 1 → getFeedbackClass e = "feedback-close" ∧
      getFeedbackMessage e = "Close! Off by 1 order of magnitude") ∧
    (e = 2 → getFeedbackClass e = "feedback-ballpark" ∧
      getFeedbackMessage e = "In the ballpark. Off by 2 orders of magnitude") ∧
    (2 < e → getFeedbackClass e = "feedback-off" ∧
      getFeedbackMessage e = "Off by " ++ toString e ++ " orders of magnitude") ∧
    (∀ (input : String) (q : Option Question) (st : SessionState)
      (uo : ℤ) (cls msg : String),
      (checkAnswer input q st).2 = CheckOutcome.result uo e cls msg →
      cls = getFeedbackClass e ∧ msg = getFeedbackMessage e) := by
  refine ⟨?_, ?_, ?_, ?_, ?_⟩
  · rintro rfl
    exact ⟨rfl, rfl⟩
  · rintro rfl
    exact ⟨rfl, rfl⟩
  · rintro rfl
    exact ⟨rfl, rfl⟩
  · intro h
    have h0 : e ≠ 0 := by omega
    have h1 : e ≠ 1 := by omega
    have h2 : ¬ e ≤ 2 := by omega
    rw [getFeedbackClass, getFeedbackMessage]
    rw [if_neg h0, if_neg h1, if_neg h2, if_neg h0, if_neg h1, if_neg h2]
    exact ⟨rfl, rfl⟩
  · intro input q st uo cls msg h
    unfold checkAnswer at h
    split at h
    · cases h
    · split at h
      · cases h
      · split at h
        · cases h
        · split at h
          · cases h
          · simp only [Prod.snd] at h
            cases h
            exact ⟨rfl, rfl⟩

/-- Witness for C2: the off tier at the concrete difference 3. -/
theorem feedback_tiers_witness :
    getFeedbackClass 3 = "feedback-off" ∧
    getFeedbackMessage 3 = "Off by " ++ toString 3 ++ " orders of magnitude" :=
  (feedback_tiers 3).2.2.2.1 (by norm_num)

/-- Helper: parseFloat of the empty string is NaN. -/
lemma jsParseFloat_empty : (jsParseFloat "").1 = PFloat.nan := rfl

/-- Helper: parseUserInput in terms of the parseFloat result, when that
result is a finite value. -/
lemma parseUserInput_of_val {s : String} {v : ℚ}
    (h : (jsParseFloat (jsTrim s)).1 = PFloat.val v) :
    parseUserInput s = if v = 0 then none else if v < 0 then none else some v := by
  have hne : jsTrim s ≠ "" := by
    intro he
    rw [he, jsParseFloat_empty] at h
    cases h
  unfold parseUserInput
  rw [if_neg hne, h]

/-- Helper: parseUserInput rejects NaN parse results. -/
lemma parseUserInput_of_nan {s : String}
    (h : (jsParseFloat (jsTrim s)).1 = PFloat.nan) : parseUserInput s = none := by
  unfold parseUserInput
  by_cases he : jsTrim s = ""
  · rw [if_pos he]
  · rw [if_neg he, h]

/-- Helper: parseUserInput rejects infinite parse results. -/
lemma parseUserInput_of_inf {s : String} {b : Bool}
    (h : (jsParseFloat (jsTrim s)).1 = PFloat.inf b) : parseUserInput s = none := by
  unfold parseUserInput
  by_cases he : jsTrim s = ""
  · rw [if_pos he]
  · rw [if_neg he, h]

/-- Helper: every value accepted by parseUserInput is positive. -/
lemma parseUserInput_pos {s : String} {v : ℚ}
    (h : parseUserInput s = some v) : 0 < v := by
  unfold parseUserInput at h
  split at h
  · cases h
  · split at h
    · cases h
    · cases h
    · rename_i num
      split at h
      · cases h
      · split at h
        · cases h
        · rename_i hn0 hn1
          cases h
          exact lt_of_le_of_ne (not_lt.mp hn1) (Ne.symm hn0)

/-- Claim C3: parseUserInput rejects (returns none for) every empty,
non-numeric (NaN or infinite parse), zero, or negative input string, and
accepts every numeric string denoting a positive finite value with that
value, including decimal and scientific notation forms such as 5e6, 5E6
and 3.5e8. -/
theorem parseUserInput_correct :
    (∀ s : String, jsTrim s = "" → parseUserInput s = none) ∧
    (∀ s : String,
      (jsParseFloat (jsTrim s)).1 = PFloat.nan → parseUserInput s = none) ∧
    (∀ (s : String) (b : Bool),
      (jsParseFloat (jsTrim s)).1 = PFloat.inf b → parseUserInput s = none) ∧
    (∀ (s : String) (v : ℚ),
      (jsParseFloat (jsTrim s)).1 = PFloat.val v → v ≤ 0 → parseUserInput s = none) ∧
    (∀ (s : String) (v : ℚ),
      (jsParseFloat (jsTrim s)).1 = PFloat.val v → 0 < v → parseUserInput s = some v) ∧
    parseUserInput "5e6" = some 5000000 ∧
    parseUserInput "5E6" = some 5000000 ∧
    parseUserInput "3.5e8" = some 350000000 ∧
    parseUserInput "" = none ∧
    parseUserInput "abc" = none ∧
    parseUserInput "0" = none ∧
    parseUserInput "-2.5" = none := by
  refine ⟨?_, ?_, ?_, ?_, ?_, ?_, ?_, ?_, ?_, ?_, ?_, ?_⟩
  · intro s h
    unfold parseUserInput
    rw [if_pos h]
  · intro s h
    exact parseUserInput_of_nan h
  · intro s b h
    exact parseUserInput_of_inf h
  · intro s v h hv
    rw [parseUserInput_of_val h]
    by_cases h0 : v = 0
    · rw [if_pos h0]
    · rw [if_neg h0, if_pos (lt_of_le_of_ne hv h0)]
  · intro s v h hv
    rw [parseUserInput_of_val h, if_neg (ne_of_gt hv), if_neg (not_lt.mpr (le_of_lt hv))]
  · decide!
  · decide!
  · decide!
  · decide!
  · decide!
  · decide!
  · decide!

/-- Witness for C3: the acceptance clause applied at the concrete numeric
string 2e3, whose parse is the positive value 2000. -/
theorem parseUserInput_correct_witness : parseUserInput "2e3" = some 2000 :=
  parseUserInput_correct.2.2.2.2.1 "2e3" 2000 (by decide!) (by norm_num)

/-- Helper: effect of folding recordAnswer over a list of errors, starting
from an arbitrary state. -/
lemma foldl_recordAnswer (errors : List ℕ) : ∀ s : SessionState,
    (errors.foldl recordAnswer s).questionsAnswered =
      s.questionsAnswered + errors.length ∧
    (errors.foldl recordAnswer s).totalError = s.totalError + (errors.sum : ℤ) ∧
    (errors.foldl recordAnswer s).withinOneOrder =
      s.withinOneOrder + (errors.countP (fun e => decide (e ≤ 1)) : ℤ) := by
  induction errors with
  | nil =>
    intro s
    simp
  | cons a t ih =>
    intro s
    obtain ⟨h1, h2, h3⟩ := ih (recordAnswer s a)
    refine ⟨?_, ?_, ?_⟩
    · rw [List.foldl_cons, h1]
      simp [recordAnswer]
      ring
    · rw [List.foldl_cons, h2]
      simp [recordAnswer]
      ring
    · rw [List.foldl_cons, h3]
      by_cases ha : a ≤ 1
      · simp [recordAnswer, List.countP_cons, ha]
        ring
      · simp [recordAnswer, List.countP_cons, ha]

/-- Claim C4: after N accepted answers with errors e1..eN, the displayed
average error is the mean of the errors formatted to one decimal place
(under exact arithmetic), and the displayed accuracy is
round(100 * count(e_i ≤ 1) / N). -/
theorem scoreTracker_correct (errors : List ℕ) (h : errors ≠ []) :
    avgErrorShown (runSession errors) =
      toFixed1 ((errors.sum : ℚ) / (errors.length : ℚ)) ∧
    accuracyShown (runSession errors) =
      round ((100 : ℚ) * (errors.countP (fun e => decide (e ≤ 1)) : ℚ) /
        (errors.length : ℚ)) := by
  have hlen : 0 < errors.length := List.length_pos.mpr h
  obtain ⟨h1, h2, h3⟩ := foldl_recordAnswer errors initialState
  have hqa : (runSession errors).questionsAnswered = (errors.length : ℤ) := by
    rw [runSession, h1]
    simp [initialState]
  have hte : (runSession errors).totalError = (errors.sum : ℤ) := by
    rw [runSession, h2]
    simp [initialState]
  have hw : (runSession errors).withinOneOrder =
      (errors.countP (fun e => decide (e ≤ 1)) : ℤ) := by
    rw [runSession, h3]
    simp [initialState]
  constructor
  · rw [avgErrorShown, hqa, hte, if_pos (by exact_mod_cast hlen)]
    congr 1
  · rw [accuracyShown, hqa, hw, if_pos (by exact_mod_cast hlen)]
    congr 1
    push_cast
    ring

/-- Witness for C4: the statistics after the two concrete errors 0 and 3:
average (0+3)/2 formatted to one decimal, accuracy round(100 * 1/2). -/
theorem scoreTracker_correct_witness :
    avgErrorShown (runSession [0, 3]) =
      toFixed1 ((([0, 3] : List ℕ).sum : ℚ) / (([0, 3] : List ℕ).length : ℚ)) ∧
    accuracyShown (runSession [0, 3]) =
      round ((100 : ℚ) * (([0, 3] : List ℕ).countP (fun e => decide (e ≤ 1)) : ℚ) /
        (([0, 3] : List ℕ).length : ℚ)) :=
  scoreTracker_correct [0, 3] (by simp)

/-- Claim C5: on each accepted answer, checkAnswer updates the session
state by exactly: answered count incremented by 1, the error added to the
running sum, and the within-one-order count incremented exactly when the
error is at most 1. -/
theorem checkAnswer_updates_state (input : String) (q : Option Question)
    (st s' : SessionState) (uo : ℤ) (e : ℕ) (cls msg : String)
    (h : checkAnswer input q st = (s', CheckOutcome.result uo e cls msg)) :
    s'.questionsAnswered = st.questionsAnswered + 1 ∧
    s'.totalError = st.totalError + (e : ℤ) ∧
    (e ≤ 1 → s'.withinOneOrder = st.withinOneOrder + 1) ∧
    (1 < e → s'.withinOneOrder = st.withinOneOrder) := by
  unfold checkAnswer at h
  split at h
  · injection h with h1 h2
    cases h2
  · split at h
    · injection h with h1 h2
      cases h2
    · split at h
      · injection h with h1 h2
        cases h2
      · split at h
        · injection h with h1 h2
          cases h2
        · injection h with h1 h2
          injection h2 with g1 g2 g3 g4
          subst g2
          subst h1
          refine ⟨rfl, rfl, ?_, ?_⟩
          · intro he
            simp [recordAnswer, if_pos he]
          · intro he
            simp [recordAnswer, if_neg (not_le.mpr he)]

/-- Helper: a full concrete run of checkAnswer on the accepted input 1000
against a question whose correct order is 3. -/
lemma checkAnswer_1000 :
    checkAnswer "1000" (some ⟨"q", 3, "src", 1⟩) initialState =
      (⟨1, 0, 1⟩, CheckOutcome.result 3 0 "feedback-exact" "Exactly right!") := by
  have htrim : jsTrim "1000" = "1000" := by decide!
  have hparse : parseUserInput "1000" = some 1000 := by decide!
  have horder : toOrderOfMagnitude ((1000 : ℚ) : ℝ) = some 3 := by
    have hc : ((1000 : ℚ) : ℝ) = (1000 : ℝ) := by norm_num
    rw [hc]
    apply toOrderOfMagnitude_eq_of_sq (by norm_num) <;> norm_num
  have hne : ¬ ("1000" : String) = "" := by decide!
  simp only [checkAnswer, htrim, hparse, horder, if_neg hne, calculateError,
    recordAnswer, getFeedbackClass, getFeedbackMessage, initialState]
  norm_num

/-- Witness for C5: the state update at the concrete accepted run of
checkAnswer on input 1000 with correct order 3 (error 0). -/
theorem checkAnswer_updates_state_witness :
    ((⟨1, 0, 1⟩ : SessionState).questionsAnswered =
      initialState.questionsAnswered + 1) ∧
    ((⟨1, 0, 1⟩ : SessionState).totalError =
      initialState.totalError + ((0 : ℕ) : ℤ)) ∧
    ((0 : ℕ) ≤ 1 → (⟨1, 0, 1⟩ : SessionState).withinOneOrder =
      initialState.withinOneOrder + 1) ∧
    (1 < (0 : ℕ) → (⟨1, 0, 1⟩ : SessionState).withinOneOrder =
      initialState.withinOneOrder) :=
  checkAnswer_updates_state "1000" (some ⟨"q", 3, "src", 1⟩) initialState
    ⟨1, 0, 1⟩ 3 0 "feedback-exact" "Exactly right!" checkAnswer_1000

/-- Helper: checkAnswer either leaves the counters unchanged (any rejected
submission) or performs exactly one recordAnswer update. -/
lemma checkAnswer_state_cases (input : String) (q : Option Question)
    (s : SessionState) :
    (checkAnswer input q s).1 = s ∨
    ∃ e : ℕ, (checkAnswer input q s).1 = recordAnswer s e := by
  unfold checkAnswer
  split
  · exact Or.inl rfl
  · split
    · exact Or.inl rfl
    · split
      · exact Or.inl rfl
      · split
        · exact Or.inl rfl
        · exact Or.inr ⟨_, rfl⟩

/-- Helper: one recordAnswer update never decreases any counter. -/
lemma recordAnswer_mono (s : SessionState) (e : ℕ) :
    s.questionsAnswered ≤ (recordAnswer s e).questionsAnswered ∧
    s.totalError ≤ (recordAnswer s e).totalError ∧
    s.withinOneOrder ≤ (recordAnswer s e).withinOneOrder := by
  simp only [recordAnswer]
  refine ⟨by omega, by omega, ?_⟩
  split
  · omega
  · omega

/-- Helper: every app event is monotone on the three counters. -/
lemma appStep_mono {s s' : SessionState} (h : AppStep s s') :
    s.questionsAnswered ≤ s'.questionsAnswered ∧
    s.totalError ≤ s'.totalError ∧
    s.withinOneOrder ≤ s'.withinOneOrder := by
  cases h with
  | other => exact ⟨le_refl _, le_refl _, le_refl _⟩
  | submit input q s =>
    rcases checkAnswer_state_cases input q s with hc | ⟨e, hc⟩
    · rw [hc]
      exact ⟨le_refl _, le_refl _, le_refl _⟩
    · rw [hc]
      exact recordAnswer_mono s e

/-- Helper: every app event preserves the counter invariant. -/
lemma appStep_preserves {s s' : SessionState} (h : AppStep s s')
    (h1 : s.withinOneOrder ≤ s.questionsAnswered) (h2 : 0 ≤ s.totalError) :
    s'.withinOneOrder ≤ s'.questionsAnswered ∧ 0 ≤ s'.totalError := by
  cases h with
  | other => exact ⟨h1, h2⟩
  | submit input q s =>
    rcases checkAnswer_state_cases input q s with hc | ⟨e, hc⟩
    · rw [hc]
      exact ⟨h1, h2⟩
    · rw [hc]
      simp only [recordAnswer]
      constructor
      · split <;> omega
      · omega

/-- Claim C6: the session counters are monotonically non-decreasing across
every operation of the app (only a page reload restarts from the initial
state), and every reachable state satisfies withinOneOrder ≤
questionsAnswered and totalError ≥ 0. -/
theorem session_counters_inv :
    (∀ s s' : SessionState, AppStep s s' →
      s.questionsAnswered ≤ s'.questionsAnswered ∧
      s.totalError ≤ s'.totalError ∧
      s.withinOneOrder ≤ s'.withinOneOrder) ∧
    (∀ s : SessionState, ReachableState s →
      s.withinOneOrder ≤ s.questionsAnswered ∧ 0 ≤ s.totalError) := by
  constructor
  · exact fun s s' h => appStep_mono h
  · intro s h
    unfold ReachableState at h
    induction h with
    | refl => exact ⟨le_refl 0, le_refl 0⟩
    | tail _ hstep ih => exact appStep_preserves hstep ih.1 ih.2

/-- Witness for C6: monotonicity across one concrete (identity) event, and
the invariant at the reachable initial state. -/
theorem session_counters_inv_witness :
    (initialState.questionsAnswered ≤ initialState.questionsAnswered ∧
     initialState.totalError ≤ initialState.totalError ∧
     initialState.withinOneOrder ≤ initialState.withinOneOrder) ∧
    (initialState.withinOneOrder ≤ initialState.questionsAnswered ∧
     0 ≤ initialState.totalError) :=
  ⟨session_counters_inv.1 initialState initialState (AppStep.other initialState),
   session_counters_inv.2 initialState Relation.ReflTransGen.refl⟩

/-- Helper: when the data global never appears during the polling window,
the loop rejects with the timeout message. -/
lemma loadLoop_none (dataAt : ℕ → Option (List Question)) :
    ∀ fuel attempt : ℕ,
    (∀ j, attempt ≤ j → j < attempt + fuel → dataAt j = none) →
    loadLoop dataAt fuel attempt = LoadResult.rejected
      "Question data not loaded. Please check your internet connection and refresh the page." := by
  intro fuel
  induction fuel with
  | zero =>
    intro attempt h
    rfl
  | succ f ih =>
    intro attempt h
    have h0 : dataAt attempt = none := h attempt (le_refl _) (by omega)
    rw [loadLoop, h0]
    exact ih (attempt + 1) (fun j hj1 hj2 => h j (by omega) (by omega))

/-- Helper: when the data global first appears at check k inside the
polling window, the loop rejects on an empty array and resolves
otherwise. -/
lemma loadLoop_found (dataAt : ℕ → Option (List Question)) :
    ∀ (fuel attempt k : ℕ) (d : List Question), attempt ≤ k → k < attempt + fuel →
    (∀ j, attempt ≤ j → j < k → dataAt j = none) → dataAt k = some d →
    loadLoop dataAt fuel attempt =
      (if d = [] then LoadResult.rejected "No questions found in data file."
       else LoadResult.resolved d) := by
  intro fuel
  induction fuel with
  | zero =>
    intro attempt k d h1 h2 h3 h4
    exact absurd h2 (by omega)
  | succ f ih =>
    intro attempt k d h1 h2 hnone hk
    rw [loadLoop]
    by_cases he : k = attempt
    · subst he
      rw [hk]
    · have h0 : dataAt attempt = none := hnone attempt (le_refl _) (by omega)
      rw [h0]
      exact ih (attempt + 1) k d (by omega) (by omega)
        (fun j ha hb => hnone j (by omega) hb) hk

/-- Helper: a resolved load always carries a non-empty list. -/
lemma loadLoop_resolved_ne_nil (dataAt : ℕ → Option (List Question)) :
    ∀ (fuel attempt : ℕ) (qs : List Question),
    loadLoop dataAt fuel attempt = LoadResult.resolved qs → qs ≠ [] := by
  intro fuel
  induction fuel with
  | zero =>
    intro attempt qs h
    cases h
  | succ f ih =>
    intro attempt qs h
    cases hd : dataAt attempt with
    | some d =>
      rw [loadLoop, hd] at h
      have h' : (if d = [] then
          LoadResult.rejected "No questions found in data file."
        else LoadResult.resolved d) = LoadResult.resolved qs := h
      by_cases hde : d = []
      · rw [if_pos hde] at h'
        cases h'
      · rw [if_neg hde] at h'
        injection h' with h''
        subst h''
        exact hde
    | none =>
      rw [loadLoop, hd] at h
      exact ih _ _ h

/-- Claim C7: loadQuestions rejects with a descriptive error when the
question data never becomes available within the polling window or when
the first available data array is empty, and otherwise resolves with the
non-empty question list; on rejection the DOMContentLoaded handler
disables further interaction and surfaces the message. -/
theorem loadQuestions_spec :
    (∀ dataAt : ℕ → Option (List Question), (∀ k, k ≤ 50 → dataAt k = none) →
      loadQuestions dataAt = LoadResult.rejected
        "Question data not loaded. Please check your internet connection and refresh the page.") ∧
    (∀ (dataAt : ℕ → Option (List Question)) (k : ℕ) (d : List Question),
      k ≤ 50 → (∀ j, j < k → dataAt j = none) → dataAt k = some d →
      (d = [] → loadQuestions dataAt =
        LoadResult.rejected "No questions found in data file.") ∧
      (d ≠ [] → loadQuestions dataAt = LoadResult.resolved d)) ∧
    (∀ (dataAt : ℕ → Option (List Question)) (qs : List Question),
      loadQuestions dataAt = LoadResult.resolved qs → qs ≠ []) ∧
    (∀ (msg : String) (ui : UIState),
      (handleLoadOutcome (LoadResult.rejected msg) ui).inputDisabled = true ∧
      (handleLoadOutcome (LoadResult.rejected msg) ui).submitDisabled = true ∧
      (handleLoadOutcome (LoadResult.rejected msg) ui).displayedError =
        some ("ERROR: " ++ msg)) := by
  refine ⟨?_, ?_, ?_, ?_⟩
  · intro dataAt h
    exact loadLoop_none dataAt 51 0 (fun j hj1 hj2 => h j (by omega))
  · intro dataAt k d hk hnone hd
    have hfound := loadLoop_found dataAt 51 0 k d (by omega) (by omega)
      (fun j h1 h2 => hnone j h2) hd
    constructor
    · intro hempty
      rw [loadQuestions, hfound, if_pos hempty]
    · intro hne
      rw [loadQuestions, hfound, if_neg hne]
  · intro dataAt qs h
    exact loadLoop_resolved_ne_nil dataAt 51 0 qs h
  · intro msg ui
    exact ⟨rfl, rfl, rfl⟩

/-- Witness for C7: the timeout clause at the concrete data source that
never provides the global. -/
theorem loadQuestions_spec_witness :
    loadQuestions (fun _ => none) = LoadResult.rejected
      "Question data not loaded. Please check your internet connection and refresh the page." :=
  loadQuestions_spec.1 (fun _ => none) (fun _ _ => rfl)

/-- Claim C8: when checkAnswer receives invalid user input (empty,
non-numeric, or non-positive, i.e. everything parseUserInput rejects), an
error message is shown and the session counters are left unchanged. -/
theorem checkAnswer_invalid_input (input : String) (q : Option Question)
    (st : SessionState) (h : parseUserInput (jsTrim input) = none) :
    ∃ msg, checkAnswer input q st = (st, CheckOutcome.errorMsg msg) ∧
      (msg = "Please enter an answer" ∨ msg = "Please enter a valid number") := by
  unfold checkAnswer
  by_cases he : jsTrim input = ""
  · rw [if_pos he]
    exact ⟨_, rfl, Or.inl rfl⟩
  · rw [if_neg he, h]
    exact ⟨_, rfl, Or.inr rfl⟩

/-- Witness for C8: the rejected submission abc against a loaded question
leaves the initial state unchanged and shows the invalid-number message. -/
theorem checkAnswer_invalid_input_witness :
    checkAnswer "abc" (some ⟨"q", 3, "src", 1⟩) initialState =
      (initialState, CheckOutcome.errorMsg "Please enter a valid number") ∨
    checkAnswer "abc" (some ⟨"q", 3, "src", 1⟩) initialState =
      (initialState, CheckOutcome.errorMsg "Please enter an answer") := by
  obtain ⟨msg, heq, hm⟩ := checkAnswer_invalid_input "abc"
    (some ⟨"q", 3, "src", 1⟩) initialState (by decide!)
  rcases hm with hm | hm
  · subst hm
    exact Or.inr heq
  · subst hm
    exact Or.inl heq

/-- Claim C9: every value parseUserInput accepts is positive, so
toOrderOfMagnitude on it never returns none, and hence the
valid-positive-number error branch of checkAnswer is unreachable. -/
theorem order_branch_unreachable :
    (∀ (s : String) (v : ℚ), parseUserInput s = some v →
      ∃ n : ℤ, toOrderOfMagnitude (v : ℝ) = some n) ∧
    (∀ (input : String) (q : Option Question) (st : SessionState),
      (checkAnswer input q st).2 ≠
        CheckOutcome.errorMsg "Please enter a valid positive number") := by
  have hpos : ∀ (s : String) (v : ℚ), parseUserInput s = some v →
      ∃ n : ℤ, toOrderOfMagnitude (v : ℝ) = some n := by
    intro s v h
    have hv : 0 < v := parseUserInput_pos h
    have hv' : (0 : ℝ) < (v : ℝ) := by exact_mod_cast hv
    exact ⟨_, toOrderOfMagnitude_of_pos hv'⟩
  refine ⟨hpos, ?_⟩
  intro input q st
  by_cases he : jsTrim input = ""
  · unfold checkAnswer
    rw [if_pos he]
    simp
  · cases hp : parseUserInput (jsTrim input) with
    | none =>
      unfold checkAnswer
      rw [if_neg he]
      simp only [hp]
      simp
    | some v =>
      obtain ⟨n, hn⟩ := hpos _ _ hp
      cases q with
      | none =>
        unfold checkAnswer
        rw [if_neg he]
        simp only [hp]
        simp
      | some q2 =>
        unfold checkAnswer
        rw [if_neg he]
        simp only [hp, hn]
        simp

/-- Witness for C9: the safety clause applied at the concrete accepted
input 5e6. -/
theorem order_branch_unreachable_witness :
    ∃ n : ℤ, toOrderOfMagnitude ((5000000 : ℚ) : ℝ) = some n :=
  order_branch_unreachable.1 "5e6" 5000000 (by decide!)

/-- Claim C10: the within-one-order counter and the feedback tiers agree:
the feedback class is exact or close exactly when the error is at most 1,
and recordAnswer increments the within-one-order count exactly in that
case (and leaves it unchanged otherwise). -/
theorem within_one_matches_tiers (e : ℕ) (s : SessionState) :
    ((getFeedbackClass e = "feedback-exact" ∨
      getFeedbackClass e = "feedback-close") ↔ e ≤ 1) ∧
    ((recordAnswer s e).withinOneOrder = s.withinOneOrder + 1 ↔
      (getFeedbackClass e = "feedback-exact" ∨
       getFeedbackClass e = "feedback-close")) ∧
    (¬ (getFeedbackClass e = "feedback-exact" ∨
        getFeedbackClass e = "feedback-close") →
      (recordAnswer s e).withinOneOrder = s.withinOneOrder) := by
  have hiff : (getFeedbackClass e = "feedback-exact" ∨
      getFeedbackClass e = "feedback-close") ↔ e ≤ 1 := by
    unfold getFeedbackClass
    rcases e with _ | _ | m
    · simp
    · simp
    · have h0 : (m + 2 : ℕ) ≠ 0 := by omega
      have h1 : (m + 2 : ℕ) ≠ 1 := by omega
      rw [if_neg h0, if_neg h1]
      by_cases h2 : m + 2 ≤ 2
      · rw [if_pos h2]
        simp
      · rw [if_neg h2]
        simp
  refine ⟨hiff, ?_, ?_⟩
  · rw [hiff]
    simp only [recordAnswer]
    by_cases h : e ≤ 1
    · simp [h]
    · simp [h]
  · intro hne
    have hgt : ¬ e ≤ 1 := fun hle => hne (hiff.mpr hle)
    simp only [recordAnswer]
    rw [if_neg hgt]

/-- Witness for C10: at the concrete error 2 (ballpark tier, not within
one order) the counter is unchanged. -/
theorem within_one_matches_tiers_witness :
    (recordAnswer initialState 2).withinOneOrder =
      initialState.withinOneOrder :=
  (within_one_matches_tiers 2 initialState).2.2 (by decide!)
